import Mathlib

/-!
Shallow embedding of the RAG query pipeline (rag-labs): the orchestrator
`Query` in services/rag.go, the prompt builder `buildContext`, the Weaviate
response parser `extractTextChunks`, the TEI embedding client `GetEmbedding`,
the vLLM generator `GenerateResponse`, and the HTTP boundary handler `Handle`.
Network calls are modelled by passing each downstream call outcome as an
explicit argument; invocation of stages is tracked by an explicit trace.
-/

namespace RagApi

/-- The fixed Go prompt template split at its two format verbs: the text before
the context slot. -/
def promptPre : String :=
  "<|begin_of_text|><|start_header_id|>system<|end_header_id|>\nUse the following pieces of context to answer the question at the end.\nIf you don\x27t know the answer, just say that you don\x27t know, don\x27t try to make up an answer.\nContext:\n"

/-- The template text between the context slot and the question slot. -/
def promptMid : String :=
  "\n<|eot_id|><|start_header_id|>user<|end_header_id|>\nQuestion:\n"

/-- The template text after the question slot. -/
def promptPost : String :=
  "\n<|eot_id|><|start_header_id|>assistant<|end_header_id|>\n"

/-- fmt.Sprintf(promptTemplate, contextStr, query): substitutes the context
string and the query into the two format verbs of the template. -/
def formatPrompt (contextStr query : String) : String :=
  promptPre ++ contextStr ++ promptMid ++ query ++ promptPost

/-- The ordinal marker prefixing every rendered passage block. -/
def contextChunkMarker : String := "--- Context Chunk"

/-- One numbered context block, fmt.Sprintf of the loop body in buildContext:
a marker line carrying the one-based ordinal, the chunk text, a blank line. -/
def chunkBlock (n : Nat) (chunk : String) : String :=
  contextChunkMarker ++ " " ++ toString n ++ " ---\n" ++ chunk ++ "\n\n"

/-- buildContext from services/rag.go: the empty chunk list yields the fixed
sentinel; otherwise the loop writes one numbered block per chunk, counting
from 1, into a string builder. -/
def buildContext (chunks : List String) : String :=
  if chunks.length = 0 then
    "No relevant context found."
  else
    chunks.enum.foldl (fun acc p => acc ++ chunkBlock (p.1 + 1) p.2) ""

/-- The final prompt assembled inside Query from the retrieved chunks and the
query string (lines 45 and 46 of services/rag.go). -/
def buildPrompt (query : String) (chunks : List String) : String :=
  formatPrompt (buildContext chunks) query

/-- Reference rendering of the numbered blocks, one per passage, the ordinal
counting up from the given start; used to state what buildContext produces. -/
def renderBlocks : Nat → List String → String
  | _, [] => ""
  | n, c :: cs => chunkBlock n c ++ renderBlocks (n + 1) cs

/-- Dynamically-typed JSON-like values, the shape of the Weaviate GraphQL
response body (Go interface values). -/
inductive JValue where
  | null
  | bool (b : Bool)
  | num (x : Float)
  | str (s : String)
  | arr (items : List JValue)
  | obj (fields : List (String × JValue))

/-- Go type assertion v.(map[string]interface\x7b\x7d): succeeds only on an object. -/
def asObj : JValue → Option (List (String × JValue))
  | .obj fs => some fs
  | _ => none

/-- Go type assertion v.([]interface\x7b\x7d): succeeds only on an array. -/
def asArr : JValue → Option (List JValue)
  | .arr xs => some xs
  | _ => none

/-- Go type assertion v.(string): succeeds only on a string. -/
def asStr : JValue → Option String
  | .str s => some s
  | _ => none

/-- Go map lookup m[key]: a missing key yields the nil interface value, which
every subsequent type assertion rejects, so it is modelled as none. -/
def jLookup (fields : List (String × JValue)) (key : String) : Option JValue :=
  match fields with
  | [] => none
  | (k, v) :: rest => if k = key then some v else jLookup rest key

/-- The loop body of extractTextChunks: an item that is not an object is
skipped; an item whose "text" field is not a string is skipped; an empty text
is skipped; otherwise the text is appended to the collected chunks. -/
def extractStep (chunks : List String) (item : JValue) : List String :=
  match asObj item with
  | none => chunks
  | some itemMap =>
    match (jLookup itemMap ("text")).bind asStr with
    | none => chunks
    | some text => if text ≠ "" then chunks ++ [text] else chunks

/-- extractTextChunks from the Weaviate service: requires data["Get"] to be an
object and get[collectionName] to be a list, then collects, in order, the
non-empty string "text" fields of those items that are objects, skipping every
other item. -/
def extractTextChunks (data : List (String × JValue)) (collectionName : String) :
    Except String (List String) :=
  match (jLookup data ("Get")).bind asObj with
  | none => .error ("invalid GraphQL response: missing Get field")
  | some get =>
    match (jLookup get collectionName).bind asArr with
    | none => .error ("invalid GraphQL response: missing collection " ++ collectionName)
    | some cls => .ok (cls.foldl extractStep [])

/-- The per-item extraction extractTextChunks performs: the "text" field of an
object item, when it is a string and non-empty. -/
def itemText (item : JValue) : Option String :=
  match asObj item with
  | none => none
  | some itemMap =>
    match (jLookup itemMap ("text")).bind asStr with
    | none => none
    | some text => if text ≠ "" then some text else none

/-- Outcome of the one HTTP round trip GetEmbedding makes against the TEI
service: a transport error, or a status code together with the result of
decoding the body as [][]float64 (decode failure carries its message). -/
inductive TEIOutcome where
  | netErr (msg : String)
  | resp (status : Nat) (body : Except String (List (List Float)))

/-- GetEmbedding from the TEI service, as a function of the HTTP outcome:
transport errors and non-200 statuses are wrapped and returned; a decoded
response is rejected when the outer list is empty or its first vector is
empty; otherwise the first vector is returned. -/
def GetEmbedding (r : TEIOutcome) : Except String (List Float) :=
  match r with
  | .netErr msg => .error ("TEI request failed: " ++ msg)
  | .resp status body =>
    if status ≠ 200 then
      .error ("TEI server returned status " ++ toString status)
    else
      match body with
      | .error e => .error ("failed to decode TEI response: " ++ e)
      | .ok response =>
        if response.length = 0 ∨ (response.headD []).length = 0 then
          .error ("empty embedding response from TEI")
        else
          .ok (response.headD [])

/-- GenerateResponse from the vLLM service, as a function of the chat
completion outcome (the list of returned choice contents): a call error is
wrapped; zero choices is an error; otherwise the first choice content. -/
def GenerateResponse (r : Except String (List String)) : Except String String :=
  match r with
  | .error e => .error ("vLLM completion failed: " ++ e)
  | .ok choices =>
    match choices with
    | [] => .error ("no completion choices returned from vLLM")
    | c :: _ => .ok c

/-- The four pipeline stages, recorded in order of execution. -/
inductive Stage where
  | embed
  | search
  | build
  | generate
deriving DecidableEq

/-- Query from services/rag.go, the orchestrator: each downstream service is
passed in as a function giving its call outcome. It returns the Go result
pair (answer string, optional error) together with the trace of stages that
were reached; each failing call returns immediately with the empty answer and
the stage-wrapped error. -/
def Query (tei : String → Except String (List Float))
    (weaviate : List Float → Except String (List String))
    (vllm : String → Except String String)
    (query : String) : (String × Option String) × List Stage :=
  match tei query with
  | .error e => (("", some ("failed to get embedding: " ++ e)), [Stage.embed])
  | .ok embedding =>
    match weaviate embedding with
    | .error e => (("", some ("failed to search Weaviate: " ++ e)), [Stage.embed, Stage.search])
    | .ok contextChunks =>
      let finalPrompt := buildPrompt query contextChunks
      match vllm finalPrompt with
      | .error e =>
        (("", some ("failed to generate answer: " ++ e)),
         [Stage.embed, Stage.search, Stage.build, Stage.generate])
      | .ok answer =>
        ((answer, none), [Stage.embed, Stage.search, Stage.build, Stage.generate])

/-- What the boundary handler Handle returns: a 400 rejection produced by the
handler itself, the pipeline error passed through, or the JSON answer. -/
inductive HandlerOutcome where
  | badRequest (msg : String)
  | failure (msg : String)
  | success (response : String)

/-- Handle from the query handler: body parse failure is a 400; an empty query
string is a 400; otherwise the RAG pipeline is invoked and its error or answer
is returned. The Bool records whether the pipeline was invoked. -/
def Handle (body : Option String) (rag : String → String × Option String) :
    HandlerOutcome × Bool :=
  match body with
  | none => (.badRequest ("Invalid request body"), false)
  | some q =>
    if q = "" then
      (.badRequest ("Query cannot be empty"), false)
    else
      match rag q with
      | (_, some e) => (.failure e, true)
      | (answer, none) => (.success answer, true)

/-- Length of a string after trimming leading and trailing whitespace,
character-wise; used to state the boundary-validation claim. -/
def trimmedLength (s : String) : Nat :=
  ((s.data.dropWhile Char.isWhitespace).reverse.dropWhile Char.isWhitespace).length

/-- Claim C1: the orchestrator runs the stages strictly in order and
short-circuits on the first failure. Whenever the embedding stage succeeds and
the search stage fails, Query returns the search error wrapped with the name
of the failing stage, together with the empty answer, and the trace shows that
neither the prompt-building stage nor the generation stage was reached. -/
theorem query_search_failure_short_circuits
    (tei : String → Except String (List Float))
    (weaviate : List Float → Except String (List String))
    (vllm : String → Except String String)
    (query : String) (embedding : List Float) (e : String)
    (hEmbed : tei query = .ok embedding)
    (hSearch : weaviate embedding = .error e) :
    Query tei weaviate vllm query
      = (("", some ("failed to search Weaviate: " ++ e)), [Stage.embed, Stage.search])
    ∧ Stage.build ∉ (Query tei weaviate vllm query).2
    ∧ Stage.generate ∉ (Query tei weaviate vllm query).2 := by
  have h : Query tei weaviate vllm query
      = (("", some ("failed to search Weaviate: " ++ e)), [Stage.embed, Stage.search]) := by
    unfold Query
    simp only [hEmbed, hSearch]
  refine ⟨h, ?_, ?_⟩ <;> rw [h] <;> simp

/-- Witness for C1: concrete stubs in which the search call times out. -/
theorem query_search_failure_short_circuits_witness :
    Query (fun _ => Except.ok []) (fun _ => Except.error ("timeout"))
        (fun _ => Except.ok ("ans")) ("q")
      = (("", some ("failed to search Weaviate: timeout")), [Stage.embed, Stage.search]) :=
  (query_search_failure_short_circuits _ _ _ ("q") [] ("timeout") rfl rfl).1

/-- Claim C8: the generator returns the content of the first choice of the
completion response, and fails with the empty-generation error when the
response carries zero choices (a call error is wrapped and propagated). -/
theorem generateResponse_first_choice :
    GenerateResponse (.ok []) = .error ("no completion choices returned from vLLM")
    ∧ (∀ (c : String) (rest : List String), GenerateResponse (.ok (c :: rest)) = .ok c)
    ∧ (∀ e, GenerateResponse (.error e) = .error ("vLLM completion failed: " ++ e)) :=
  ⟨rfl, fun _ _ => rfl, fun _ => rfl⟩

/-- Claim C10: whenever any stage fails, the orchestrator returns the empty
string as the answer value alongside the error. -/
theorem query_failure_empty_answer
    (tei : String → Except String (List Float))
    (weaviate : List Float → Except String (List String))
    (vllm : String → Except String String)
    (query : String) (e : String)
    (h : (Query tei weaviate vllm query).1.2 = some e) :
    (Query tei weaviate vllm query).1.1 = "" := by
  unfold Query at h ⊢
  cases hT : tei query with
  | error e1 => simp [hT]
  | ok emb =>
    cases hW : weaviate emb with
    | error e2 => simp [hT, hW]
    | ok chunks =>
      cases hV : vllm (buildPrompt query chunks) with
      | error e3 => simp [hT, hW, hV]
      | ok ans =>
        simp only [hT, hW, hV] at h
        exact Option.noConfusion h

/-- Witness for C10: a concrete run whose embedding call fails. -/
theorem query_failure_empty_answer_witness :
    (Query (fun _ => Except.error ("down")) (fun _ => Except.ok [])
        (fun _ => Except.ok ("ans")) ("q")).1.1 = "" :=
  query_failure_empty_answer _ _ _ ("q") ("failed to get embedding: down") rfl

/-- Claim C9 counterexample: the handler checks the raw query against the
empty string only; the single-space query has trimmed length 0, yet it passes
the check and the pipeline is invoked. -/
theorem handle_whitespace_query_reaches_pipeline :
    trimmedLength (" ") < 1
    ∧ (Handle (some (" ")) (fun _ => ("", none))).2 = true := by
  constructor
  · decide
  · rfl

/-- Claim C9 as amended: only the exactly-empty query string (and an unparsable
body) is rejected with a bad request before the pipeline; every other query,
all-whitespace ones included, invokes the pipeline. -/
theorem handle_rejects_only_empty_query
    (rag : String → String × Option String) (q : String) (hq : q ≠ "") :
    Handle (some ("")) rag = (.badRequest ("Query cannot be empty"), false)
    ∧ Handle none rag = (.badRequest ("Invalid request body"), false)
    ∧ (Handle (some q) rag).2 = true := by
  refine ⟨rfl, rfl, ?_⟩
  rcases hrag : rag q with ⟨a, b⟩
  unfold Handle
  simp only [hrag, if_neg hq]
  cases b <;> rfl

/-- Witness for the amended C9: the single-space query. -/
theorem handle_rejects_only_empty_query_witness :
    Handle (some ("")) (fun _ => ("", none)) = (.badRequest ("Query cannot be empty"), false)
    ∧ (Handle (some (" ")) (fun _ => ("", none))).2 = true :=
  ⟨(handle_rejects_only_empty_query (fun _ => ("", none)) (" ") (by decide)).1,
   (handle_rejects_only_empty_query (fun _ => ("", none)) (" ") (by decide)).2.2⟩

/-- Claim C5: a search response whose top-level Get object is missing or of
the wrong shape, or whose configured collection list within it is missing or
of the wrong shape, makes extractTextChunks fail with the malformed-response
error and no passages. -/
theorem extractTextChunks_malformed
    (data : List (String × JValue)) (coll : String) :
    ((jLookup data ("Get")).bind asObj = none →
      extractTextChunks data coll = .error ("invalid GraphQL response: missing Get field"))
    ∧ (∀ get, (jLookup data ("Get")).bind asObj = some get →
        (jLookup get coll).bind asArr = none →
        extractTextChunks data coll
          = .error ("invalid GraphQL response: missing collection " ++ coll)) := by
  constructor
  · intro h
    unfold extractTextChunks
    simp only [h]
  · intro get h1 h2
    unfold extractTextChunks
    simp only [h1, h2]

/-- Witness for C5: the empty response map and a response whose collection
entry is a string rather than a list. -/
theorem extractTextChunks_malformed_witness :
    extractTextChunks [] ("Docs")
      = .error ("invalid GraphQL response: missing Get field")
    ∧ extractTextChunks [(("Get"), JValue.obj [(("Docs"), JValue.str ("oops"))])] ("Docs")
      = .error ("invalid GraphQL response: missing collection " ++ "Docs") :=
  ⟨(extractTextChunks_malformed [] ("Docs")).1 rfl,
   (extractTextChunks_malformed [(("Get"), JValue.obj [(("Docs"), JValue.str ("oops"))])]
      ("Docs")).2 [(("Docs"), JValue.str ("oops"))] rfl rfl⟩

/-- Helper shared by the embedding claims: a decoded 200 response whose outer
list is empty or whose first vector is empty is rejected by GetEmbedding. -/
theorem getEmbedding_empty_batch_aux
    (response : List (List Float))
    (h : response = [] ∨ response.headD [] = []) :
    GetEmbedding (.resp 200 (.ok response))
      = .error ("empty embedding response from TEI") := by
  have hc : response.length = 0 ∨ (response.headD []).length = 0 := by
    rcases h with h | h
    · left; rw [h]; rfl
    · right; rw [h]; rfl
  unfold GetEmbedding
  simp only [if_pos hc]
  rfl

/-- Claim C6: an embedding response with an empty outer sequence or an empty
first vector makes GetEmbedding fail with the empty-embedding error, and
GetEmbedding never succeeds with a zero-length vector. -/
theorem getEmbedding_rejects_empty
    (response : List (List Float))
    (h : response = [] ∨ response.headD [] = []) :
    GetEmbedding (.resp 200 (.ok response)) = .error ("empty embedding response from TEI")
    ∧ ∀ (r : TEIOutcome) (v : List Float), GetEmbedding r = .ok v → v ≠ [] := by
  refine ⟨getEmbedding_empty_batch_aux response h, ?_⟩
  intro r v hr
  unfold GetEmbedding at hr
  split at hr
  · exact Except.noConfusion hr
  · split at hr
    · exact Except.noConfusion hr
    · split at hr
      · exact Except.noConfusion hr
      · split at hr
        · exact Except.noConfusion hr
        · rename_i hcond
          intro hnil
          apply hcond
          right
          rw [Except.ok.inj hr, hnil]
          rfl

/-- Witness for C6: the empty batch. -/
theorem getEmbedding_rejects_empty_witness :
    GetEmbedding (.resp 200 (.ok ([] : List (List Float))))
      = .error ("empty embedding response from TEI") :=
  (getEmbedding_rejects_empty [] (Or.inl rfl)).1

/-- Claim C7 counterexample: a batch that contains an empty vector in a
position other than the first does not cause a failure; GetEmbedding returns
the first vector successfully. -/
theorem getEmbedding_later_empty_vector_succeeds :
    (∃ v ∈ ([[0.5], []] : List (List Float)), v = [])
    ∧ GetEmbedding (.resp 200 (.ok [[0.5], []])) = .ok [0.5] :=
  ⟨⟨[], List.Mem.tail _ (List.Mem.head _), rfl⟩, rfl⟩

/-- Claim C7 as amended: GetEmbedding fails whenever the network call errors,
the service returns a status other than 200, or the response batch is empty
or its first vector is empty (an empty vector elsewhere in the batch is not
checked). -/
theorem getEmbedding_failure_conditions :
    (∀ msg, GetEmbedding (.netErr msg) = .error ("TEI request failed: " ++ msg))
    ∧ (∀ (status : Nat) (body : Except String (List (List Float))), status ≠ 200 →
        GetEmbedding (.resp status body)
          = .error ("TEI server returned status " ++ toString status))
    ∧ (∀ response : List (List Float), response = [] ∨ response.headD [] = [] →
        GetEmbedding (.resp 200 (.ok response))
          = .error ("empty embedding response from TEI")) := by
  refine ⟨fun _ => rfl, ?_, ?_⟩
  · intro status body hs
    unfold GetEmbedding
    simp only [if_pos hs]
  · intro response h
    exact getEmbedding_empty_batch_aux response h

/-- Witness for the amended C7: a transport failure, a 404 status, and the
empty batch. -/
theorem getEmbedding_failure_conditions_witness :
    GetEmbedding (.netErr ("connection refused"))
      = .error ("TEI request failed: " ++ "connection refused")
    ∧ GetEmbedding (.resp 404 (.ok [[0.5]]))
      = .error ("TEI server returned status " ++ toString 404)
    ∧ GetEmbedding (.resp 200 (.ok ([[], [0.5]] : List (List Float))))
      = .error ("empty embedding response from TEI") :=
  ⟨getEmbedding_failure_conditions.1 ("connection refused"),
   getEmbedding_failure_conditions.2.1 404 (.ok [[0.5]]) (by decide),
   getEmbedding_failure_conditions.2.2 [[], [0.5]] (Or.inr rfl)⟩

/-- Helper for C3: the accumulator loop of extractTextChunks collects, after
the accumulator, exactly the per-item extractions that produce a text. -/
theorem extract_loop_filterMap (items : List JValue) (acc : List String) :
    items.foldl extractStep acc = acc ++ items.filterMap itemText := by
  induction items generalizing acc with
  | nil => simp
  | cons x xs ih =>
    rw [List.foldl_cons, ih, List.filterMap_cons]
    cases hx : asObj x with
    | none => simp [extractStep, itemText, hx]
    | some m =>
      cases ht : (jLookup m ("text")).bind asStr with
      | none => simp [extractStep, itemText, hx, ht]
      | some t =>
        by_cases hte : t = ""
        · simp [extractStep, itemText, hx, ht, hte]
        · simp [extractStep, itemText, hx, ht, hte]

/-- Claim C3: on a structurally valid search response (Get object present and
the collection list present), extractTextChunks succeeds and returns exactly
the non-empty text fields of the result items in order; items without a
usable text are skipped, and zero matches yield the empty list, not an
error. -/
theorem extractTextChunks_valid
    (data : List (String × JValue)) (coll : String)
    (get : List (String × JValue)) (items : List JValue)
    (h1 : (jLookup data ("Get")).bind asObj = some get)
    (h2 : (jLookup get coll).bind asArr = some items) :
    extractTextChunks data coll = .ok (items.filterMap itemText)
    ∧ (items = [] → extractTextChunks data coll = .ok []) := by
  have hmain : extractTextChunks data coll = .ok (items.filterMap itemText) := by
    unfold extractTextChunks
    simp only [h1, h2]
    rw [extract_loop_filterMap]
    rfl
  refine ⟨hmain, fun hnil => ?_⟩
  rw [hmain, hnil]
  rfl

/-- Witness for C3: a response with four items, one lacking the text field,
one with an empty text, one not an object; the two usable texts come back in
order. Also the zero-match response. -/
theorem extractTextChunks_valid_witness :
    extractTextChunks
      [(("Get"), JValue.obj [(("Docs"), JValue.arr
        [JValue.obj [(("text"), JValue.str ("A"))],
         JValue.obj [(("other"), JValue.str ("x"))],
         JValue.obj [(("text"), JValue.str (""))],
         JValue.str ("not-an-object"),
         JValue.obj [(("text"), JValue.str ("B"))]])])] ("Docs")
      = .ok [("A"), ("B")]
    ∧ extractTextChunks [(("Get"), JValue.obj [(("Docs"), JValue.arr [])])] ("Docs")
      = .ok [] := by
  constructor
  · exact (extractTextChunks_valid
      [(("Get"), JValue.obj [(("Docs"), JValue.arr
        [JValue.obj [(("text"), JValue.str ("A"))],
         JValue.obj [(("other"), JValue.str ("x"))],
         JValue.obj [(("text"), JValue.str (""))],
         JValue.str ("not-an-object"),
         JValue.obj [(("text"), JValue.str ("B"))]])])] ("Docs")
      [(("Docs"), JValue.arr
        [JValue.obj [(("text"), JValue.str ("A"))],
         JValue.obj [(("other"), JValue.str ("x"))],
         JValue.obj [(("text"), JValue.str (""))],
         JValue.str ("not-an-object"),
         JValue.obj [(("text"), JValue.str ("B"))]])]
      [JValue.obj [(("text"), JValue.str ("A"))],
       JValue.obj [(("other"), JValue.str ("x"))],
       JValue.obj [(("text"), JValue.str (""))],
       JValue.str ("not-an-object"),
       JValue.obj [(("text"), JValue.str ("B"))]] rfl rfl).1
  · exact (extractTextChunks_valid
      [(("Get"), JValue.obj [(("Docs"), JValue.arr [])])] ("Docs")
      [(("Docs"), JValue.arr [])] [] rfl rfl).2 rfl

/-- Helper for C2: the buildContext loop over the enumerated chunks appends,
after the accumulator, the numbered blocks counting up from the enumeration
start plus one. -/
theorem buildContext_loop (cs : List String) (n : Nat) (acc : String) :
    (List.enumFrom n cs).foldl (fun acc p => acc ++ chunkBlock (p.1 + 1) p.2) acc
      = acc ++ renderBlocks (n + 1) cs := by
  induction cs generalizing n acc with
  | nil => simp [renderBlocks, String.append_empty]
  | cons c cs ih =>
    rw [show List.enumFrom n (c :: cs) = (n, c) :: List.enumFrom (n + 1) cs from rfl]
    rw [List.foldl_cons, ih]
    simp only [renderBlocks]
    rw [String.append_assoc]

/-- Helper for C2: on a non-empty chunk list, buildContext is exactly the
concatenation of the numbered blocks, counting from 1, in input order. -/
theorem buildContext_cons (d : String) (ds : List String) :
    buildContext (d :: ds) = renderBlocks 1 (d :: ds) := by
  unfold buildContext
  rw [if_neg (by simp)]
  rw [show (d :: ds).enum = List.enumFrom 0 (d :: ds) from rfl]
  rw [buildContext_loop]
  exact String.empty_append _

/-- Claim C2: for a non-empty passage sequence the built prompt renders each
passage as a numbered block in input order, concatenated in sequence, with
the original query embedded in the fixed instruction template; for two
passages the context is exactly the two blocks numbered 1 and 2, each
followed by its passage text verbatim. -/
theorem buildPrompt_renders_numbered_blocks (q c : String) (cs : List String) :
    buildPrompt q (c :: cs)
      = promptPre ++ renderBlocks 1 (c :: cs) ++ promptMid ++ q ++ promptPost
    ∧ ∀ p1 p2, buildPrompt q [p1, p2]
      = promptPre ++ (("--- Context Chunk 1 ---\n" ++ p1 ++ "\n\n")
          ++ ("--- Context Chunk 2 ---\n" ++ p2 ++ "\n\n")) ++ promptMid ++ q ++ promptPost := by
  constructor
  · unfold buildPrompt formatPrompt
    rw [buildContext_cons]
  · intro p1 p2
    unfold buildPrompt formatPrompt
    rw [buildContext_cons]
    show promptPre ++ (chunkBlock 1 p1 ++ (chunkBlock 2 p2 ++ "")) ++ promptMid ++ q
        ++ promptPost = _
    rw [String.append_empty]
    rfl

/-- Helper for C4: an infix of an appended list lies in the left part, lies in
the right part, or splits into a non-empty suffix of the left part followed by
a non-empty prefix of the right part. -/
theorem isInfix_append_split {α : Type} {t a b : List α} (h : t <:+: a ++ b) :
    t <:+: a ∨ t <:+: b ∨
      ∃ t1 t2, t = t1 ++ t2 ∧ t1 ≠ [] ∧ t2 ≠ [] ∧ t1 <:+ a ∧ t2 <+: b := by
  obtain ⟨s, u, hsu⟩ := h
  rw [List.append_assoc] at hsu
  rcases List.append_eq_append_iff.mp hsu with ⟨x, hx1, hx2⟩ | ⟨x, hx1, hx2⟩
  · rcases List.append_eq_append_iff.mp hx2 with ⟨y, hy1, hy2⟩ | ⟨y, hy1, hy2⟩
    · left
      exact ⟨s, y, by rw [List.append_assoc, ← hy1, hx1]⟩
    · rcases eq_or_ne x [] with hx | hx
      · right; left
        exact ⟨[], u, by rw [List.nil_append, hy1, hx, List.nil_append, hy2]⟩
      · rcases eq_or_ne y [] with hy | hy
        · left
          refine ⟨s, [], ?_⟩
          rw [List.append_nil, hy1, hy, List.append_nil, hx1]
        · right; right
          exact ⟨x, y, hy1, hx, hy, ⟨s, hx1.symm⟩, ⟨u, hy2.symm⟩⟩
  · right; left
    exact ⟨x, u, by rw [List.append_assoc, ← hx2]⟩

/-- Helper for C4: a pattern that avoids the newline character cannot occur in
A ++ q ++ B when it occurs in none of the three parts, A ends with a newline
and B starts with one: any occurrence crossing a boundary would have to
contain that newline. -/
theorem pattern_not_infix_sandwich {t A q B : List Char}
    (hA : ¬ t <:+: A) (hq : ¬ t <:+: q) (hB : ¬ t <:+: B)
    (hlastA : A.getLast? = some ('\n'))
    (hheadB : B.head? = some ('\n'))
    (hnl : ('\n') ∉ t) :
    ¬ t <:+: A ++ (q ++ B) := by
  intro h
  rcases isInfix_append_split h with h1 | h2 | ⟨t1, t2, ht, h1ne, h2ne, hsuf, hpre⟩
  · exact hA h1
  · rcases isInfix_append_split h2 with g1 | g2 | ⟨t1, t2, ht, h1ne, h2ne, hsuf, hpre⟩
    · exact hq g1
    · exact hB g2
    · obtain ⟨c, t2r, rfl⟩ := List.exists_cons_of_ne_nil h2ne
      obtain ⟨r, hr⟩ := hpre
      rw [← hr] at hheadB
      simp only [List.cons_append, List.head?_cons, Option.some.injEq] at hheadB
      apply hnl
      rw [ht, ← hheadB]
      exact List.mem_append_right t1 (List.mem_cons_self c t2r)
  · obtain ⟨s, hs⟩ := hsuf
    have hlast1 : t1.getLast? = some ('\n') := by
      rw [← hs] at hlastA
      rwa [List.getLast?_append_of_ne_nil s h1ne] at hlastA
    obtain ⟨hne, heq⟩ := List.mem_getLast?_eq_getLast
      (show ('\n') ∈ t1.getLast? by rw [hlast1]; rfl)
    apply hnl
    rw [ht]
    refine List.mem_append_left t2 ?_
    rw [heq]
    exact List.getLast_mem hne

set_option maxRecDepth 8000 in
/-- Claim C4 counterexample: the claim quantifies over every query, but the
query itself is embedded verbatim in the prompt, so a query containing the
marker makes the empty-passages prompt contain a context-chunk marker. -/
theorem buildPrompt_empty_marker_from_query :
    buildContext [] = "No relevant context found."
    ∧ contextChunkMarker.data <:+: (buildPrompt ("--- Context Chunk 1 ---") []).data := by
  refine ⟨rfl, ⟨(promptPre ++ "No relevant context found." ++ promptMid).data,
    (" 1 ---" ++ promptPost).data, ?_⟩⟩
  decide

set_option maxRecDepth 8000 in
/-- Claim C4 as amended: with an empty passage sequence the context section is
exactly the sentinel, the prompt is the template around the sentinel and the
query, and as long as the query itself does not contain the marker, the whole
prompt contains no context-chunk marker. -/
theorem buildPrompt_empty_passages (q : String)
    (hq : ¬ contextChunkMarker.data <:+: q.data) :
    buildContext [] = "No relevant context found."
    ∧ buildPrompt q []
      = promptPre ++ "No relevant context found." ++ promptMid ++ q ++ promptPost
    ∧ ¬ contextChunkMarker.data <:+: (buildPrompt q []).data := by
  refine ⟨rfl, rfl, ?_⟩
  have hdata : (buildPrompt q []).data
      = (promptPre ++ "No relevant context found." ++ promptMid).data
        ++ (q.data ++ promptPost.data) := by
    rw [show buildPrompt q []
        = promptPre ++ "No relevant context found." ++ promptMid ++ q ++ promptPost from rfl]
    simp only [String.data_append, List.append_assoc]
  rw [hdata]
  exact pattern_not_infix_sandwich (by decide) hq (by decide) (by decide) (by decide)
    (by decide)

/-- Witness for the amended C4: a marker-free query. -/
theorem buildPrompt_empty_passages_witness :
    ¬ contextChunkMarker.data <:+: (buildPrompt ("hi") []).data :=
  (buildPrompt_empty_passages ("hi") (by decide)).2.2

end RagApi
